import Mathlib

/-!
Shallow embedding of src/netsuite/client.py, a configuration layer over a
SOAP client: WSDL URL templating, constructor validation, lazily cached
accessors, namespace type factories, request dispatch with authentication
headers, and a decorator that navigates a dotted path into responses.
Python strings are Lean String values, attribute dictionaries are
association lists, and exceptions are Except values.
-/

namespace NS

/-! String helpers embedding the Python string operations used by client.py. -/

/-- Embeds Python str.replace with a single-character pattern:
each occurrence of old is replaced by new. -/
def replaceChar (old new : Char) : List Char → List Char
  | [] => []
  | c :: rest => (if c = old then new else c) :: replaceChar old new rest

/-- NetSuite.underscored_version: the version with each dot replaced by an
underscore. -/
def underscored_version (version : String) : String :=
  String.mk (replaceChar '.' '_' version.data)

/-- Embeds Python rpartition applied as rpartition(sep)[0]: everything before
the last occurrence of sep, or none when sep does not occur. -/
def rpartBefore (sep : Char) : List Char → Option (List Char)
  | [] => none
  | c :: rest =>
    match rpartBefore sep rest with
    | some p => some (c :: p)
    | none => if c = sep then some [] else none

/-- NetSuite.underscored_version_no_micro: the underscored version with the
part from the last underscore on removed; empty when there is no
underscore, matching the Python rpartition semantics. -/
def underscored_version_no_micro (version : String) : String :=
  match rpartBefore '_' (underscored_version version).data with
  | some p => String.mk p
  | none => ""

/-- Embeds Python str.split with a single-character separator. -/
def splitOnChar (sep : Char) : List Char → List (List Char)
  | [] => [[]]
  | c :: rest =>
    let r := splitOnChar sep rest
    if c = sep then [] :: r
    else
      match r with
      | [] => [[c]]
      | h :: t => (c :: h) :: t

/-- Python path.split on a dot, producing the parts as strings. -/
def splitDotted (path : String) : List String :=
  (splitOnChar '.' path.data).map String.mk

/-! The version regex. The constructor asserts re.match of the pattern
digits dot digits dot digits, anchored at the start of the string only.
The pattern never needs backtracking because a dot is not a digit, so the
greedy matcher below is exact. -/

/-- Consume a maximal run of decimal digits. -/
def dropDigits : List Char → List Char
  | [] => []
  | c :: rest => if c.isDigit then dropDigits rest else c :: rest

/-- Consume one or more decimal digits; fails when the first character is
not a digit. -/
def matchPlusDigits : List Char → Option (List Char)
  | [] => none
  | c :: rest => if c.isDigit then some (dropDigits rest) else none

/-- Consume a literal dot character. -/
def matchDot : List Char → Option (List Char)
  | [] => none
  | c :: rest => if c = '.' then some rest else none

/-- Embeds re.match of the version pattern: digits dot digits dot digits,
matched from the start of the string with arbitrary trailing characters
allowed. -/
def version_regex_match (s : String) : Bool :=
  (((((matchPlusDigits s.data).bind matchDot).bind matchPlusDigits).bind
    matchDot).bind matchPlusDigits).isSome

/-- The claim-side characterisation of the accepted versions: the string
begins with one or more digits, a dot, one or more digits, a dot, and one
or more digits, with arbitrary trailing characters. -/
def isVersionPrefixShape (v : String) : Prop :=
  ∃ a b c rest : List Char,
    v.data = a ++ '.' :: (b ++ '.' :: (c ++ rest)) ∧
    a ≠ [] ∧ b ≠ [] ∧ c ≠ [] ∧
    (∀ ch ∈ a, ch.isDigit = true) ∧ (∀ ch ∈ b, ch.isDigit = true) ∧
    (∀ ch ∈ c, ch.isDigit = true)

/-! The NetSuite instance: constructor arguments and derived properties. -/

/-- A zeep cache object: either the SqliteCache built by _generate_cache,
carrying its timeout, or a user-supplied cache identified abstractly. -/
inductive CacheObj where
  | sqlite (timeout : Nat)
  | user (id : Nat)
deriving DecidableEq

/-- A requests session object: either the one built by _generate_session or
a user-supplied session identified abstractly. -/
inductive SessionObj where
  | generated
  | user (id : Nat)
deriving DecidableEq

/-- The configuration state a constructed NetSuite instance holds: the
resolved sandbox flag and version plus the raw keyword arguments that the
cached properties later consult. -/
structure NetSuiteState where
  sandbox : Bool
  version : String
  wsdl_url_arg : Option String
  cache_arg : Option CacheObj
  session_arg : Option SessionObj
deriving DecidableEq

/-- Class attribute: sandbox defaults to True. -/
def default_sandbox : Bool := true

/-- Class attribute: version defaults to 2017.2.0. -/
def default_version : String := "2017.2.0"

/-- NetSuite.__init__: keyword arguments default to None; a sandbox or
version argument that is not None overrides the class attribute, and a
version override must match the version regex or an AssertionError is
raised, embedded as Except.error. -/
def NetSuite_init (sandbox : Option Bool) (version : Option String)
    (wsdl_url : Option String) (cache : Option CacheObj)
    (session : Option SessionObj) : Except String NetSuiteState :=
  let sb := match sandbox with
    | some b => b
    | none => default_sandbox
  match version with
  | some v =>
    if version_regex_match v then
      Except.ok { sandbox := sb, version := v, wsdl_url_arg := wsdl_url,
                  cache_arg := cache, session_arg := session }
    else Except.error "AssertionError"
  | none =>
    Except.ok { sandbox := sb, version := default_version, wsdl_url_arg := wsdl_url,
                cache_arg := cache, session_arg := session }

/-- The class attribute wsdl_url_tmpl with its two format holes filled in:
subpath and underscored version. -/
def wsdl_url_tmpl_format (subpath uv : String) : String :=
  "https://webservices." ++ subpath ++ "netsuite.com/wsdl/v" ++ uv ++ "/netsuite.wsdl"

/-- NetSuite._generate_wsdl_url: fills the template with the sandbox
subpath and the underscored version. -/
def generate_wsdl_url (st : NetSuiteState) : String :=
  wsdl_url_tmpl_format (if st.sandbox then "sandbox." else "") (underscored_version st.version)

/-- The wsdl_url property: the constructor argument when truthy, a freshly
derived URL otherwise. An empty string is falsy in Python, so it also
falls through to the derived URL. -/
def NetSuiteState.wsdl_url (st : NetSuiteState) : String :=
  match st.wsdl_url_arg with
  | some u => if u = "" then generate_wsdl_url st else u
  | none => generate_wsdl_url st

/-- NetSuite._generate_cache: a SqliteCache with a timeout of one year of
seconds. -/
def generate_cache : CacheObj := CacheObj.sqlite (60 * 60 * 24 * 365)

/-- The cache property: the constructor argument when given, otherwise the
generated SqliteCache. -/
def NetSuiteState.cache (st : NetSuiteState) : CacheObj :=
  match st.cache_arg with
  | some c => c
  | none => generate_cache

/-- NetSuite._generate_session: a fresh requests session. -/
def generate_session : SessionObj := SessionObj.generated

/-- The session property: the constructor argument when given, otherwise a
generated session. -/
def NetSuiteState.session (st : NetSuiteState) : SessionObj :=
  match st.session_arg with
  | some s => s
  | none => generate_session

/-- A zeep transport, determined by the session and cache it is built
from. -/
structure Transport where
  session : SessionObj
  cache : CacheObj
deriving DecidableEq

/-- NetSuite._generate_transport: builds the transport from the session
property and the cache property. -/
def generate_transport (st : NetSuiteState) : Transport :=
  { session := st.session, cache := st.cache }

/-- The transport property. -/
def NetSuiteState.transport (st : NetSuiteState) : Transport :=
  generate_transport st

/-! Namespace type factories. A zeep type factory is identified by the URN
it is bound to, so the embedding represents a factory by its URN string. -/

/-- NetSuite._get_namespace: the URN for a module name and sub namespace at
the configured version without its micro component. -/
def get_namespace (st : NetSuiteState) (name sub_namespace : String) : String :=
  "urn:" ++ name ++ "_" ++ underscored_version_no_micro st.version ++ "." ++
    sub_namespace ++ ".webservices.netsuite.com"

/-- NetSuite._type_factory: the type factory of the client for the URN of
the given module name and sub namespace, represented by that URN. -/
def type_factory (st : NetSuiteState) (name sub_namespace : String) : String :=
  get_namespace st name sub_namespace

def NetSuiteState.Core (st : NetSuiteState) : String := type_factory st "core" "platform"

def NetSuiteState.CoreTypes (st : NetSuiteState) : String := type_factory st "types.core" "platform"

def NetSuiteState.FaultsTypes (st : NetSuiteState) : String := type_factory st "types.faults" "platform"

def NetSuiteState.Faults (st : NetSuiteState) : String := type_factory st "faults" "platform"

def NetSuiteState.Messages (st : NetSuiteState) : String := type_factory st "messages" "platform"

def NetSuiteState.Common (st : NetSuiteState) : String := type_factory st "common" "platform"

def NetSuiteState.CommonTypes (st : NetSuiteState) : String := type_factory st "types.common" "platform"

def NetSuiteState.Scheduling (st : NetSuiteState) : String := type_factory st "scheduling" "activities"

def NetSuiteState.SchedulingTypes (st : NetSuiteState) : String := type_factory st "types.scheduling" "activities"

def NetSuiteState.Communication (st : NetSuiteState) : String := type_factory st "communication" "general"

def NetSuiteState.CommunicationTypes (st : NetSuiteState) : String := type_factory st "types.communication" "general"

def NetSuiteState.Filecabinet (st : NetSuiteState) : String := type_factory st "filecabinet" "documents"

def NetSuiteState.FilecabinetTypes (st : NetSuiteState) : String := type_factory st "types.filecabinet" "documents"

def NetSuiteState.Relationships (st : NetSuiteState) : String := type_factory st "relationships" "lists"

def NetSuiteState.RelationshipsTypes (st : NetSuiteState) : String := type_factory st "types.relationships" "lists"

def NetSuiteState.Support (st : NetSuiteState) : String := type_factory st "support" "lists"

def NetSuiteState.SupportTypes (st : NetSuiteState) : String := type_factory st "types.support" "lists"

def NetSuiteState.Accounting (st : NetSuiteState) : String := type_factory st "accounting" "lists"

def NetSuiteState.AccountingTypes (st : NetSuiteState) : String := type_factory st "types.accounting" "lists"

def NetSuiteState.Sales (st : NetSuiteState) : String := type_factory st "sales" "transactions"

def NetSuiteState.SalesTypes (st : NetSuiteState) : String := type_factory st "types.sales" "transactions"

def NetSuiteState.Purchases (st : NetSuiteState) : String := type_factory st "purchases" "transactions"

def NetSuiteState.PurchasesTypes (st : NetSuiteState) : String := type_factory st "types.purchases" "transactions"

def NetSuiteState.Customers (st : NetSuiteState) : String := type_factory st "customers" "transactions"

def NetSuiteState.CustomersTypes (st : NetSuiteState) : String := type_factory st "types.customers" "transactions"

def NetSuiteState.Financial (st : NetSuiteState) : String := type_factory st "financial" "transactions"

def NetSuiteState.FinancialTypes (st : NetSuiteState) : String := type_factory st "types.financial" "transactions"

def NetSuiteState.Bank (st : NetSuiteState) : String := type_factory st "bank" "transactions"

def NetSuiteState.BankTypes (st : NetSuiteState) : String := type_factory st "types.bank" "transactions"

def NetSuiteState.Inventory (st : NetSuiteState) : String := type_factory st "inventory" "transactions"

def NetSuiteState.InventoryTypes (st : NetSuiteState) : String := type_factory st "types.inventory" "transactions"

def NetSuiteState.General (st : NetSuiteState) : String := type_factory st "general" "transactions"

def NetSuiteState.Customization (st : NetSuiteState) : String := type_factory st "customization" "setup"

def NetSuiteState.CustomizationTypes (st : NetSuiteState) : String := type_factory st "types.customization" "setup"

def NetSuiteState.Employees (st : NetSuiteState) : String := type_factory st "employees" "lists"

def NetSuiteState.EmployeesTypes (st : NetSuiteState) : String := type_factory st "types.employees" "lists"

def NetSuiteState.Website (st : NetSuiteState) : String := type_factory st "website" "lists"

def NetSuiteState.WebsiteTypes (st : NetSuiteState) : String := type_factory st "types.website" "lists"

def NetSuiteState.EmployeesTransactions (st : NetSuiteState) : String := type_factory st "employees" "transactions"

def NetSuiteState.EmployeesTransactionsTypes (st : NetSuiteState) : String := type_factory st "types.employees" "transactions"

def NetSuiteState.Marketing (st : NetSuiteState) : String := type_factory st "marketing" "lists"

def NetSuiteState.MarketingTypes (st : NetSuiteState) : String := type_factory st "types.marketing" "lists"

def NetSuiteState.DemandPlanning (st : NetSuiteState) : String := type_factory st "demandplanning" "transactions"

def NetSuiteState.DemandPlanningTypes (st : NetSuiteState) : String := type_factory st "types.demandplanning" "transactions"

def NetSuiteState.SupplyChain (st : NetSuiteState) : String := type_factory st "supplychain" "lists"

def NetSuiteState.SupplyChainTypes (st : NetSuiteState) : String := type_factory st "types.supplychain" "lists"

/-- The registry of namespace factory accessors as listed in the source,
in order: accessor name, module name, sub namespace. -/
def namespaceRegistry : List (String × String × String) :=
  [("Core", "core", "platform"),
   ("CoreTypes", "types.core", "platform"),
   ("FaultsTypes", "types.faults", "platform"),
   ("Faults", "faults", "platform"),
   ("Messages", "messages", "platform"),
   ("Common", "common", "platform"),
   ("CommonTypes", "types.common", "platform"),
   ("Scheduling", "scheduling", "activities"),
   ("SchedulingTypes", "types.scheduling", "activities"),
   ("Communication", "communication", "general"),
   ("CommunicationTypes", "types.communication", "general"),
   ("Filecabinet", "filecabinet", "documents"),
   ("FilecabinetTypes", "types.filecabinet", "documents"),
   ("Relationships", "relationships", "lists"),
   ("RelationshipsTypes", "types.relationships", "lists"),
   ("Support", "support", "lists"),
   ("SupportTypes", "types.support", "lists"),
   ("Accounting", "accounting", "lists"),
   ("AccountingTypes", "types.accounting", "lists"),
   ("Sales", "sales", "transactions"),
   ("SalesTypes", "types.sales", "transactions"),
   ("Purchases", "purchases", "transactions"),
   ("PurchasesTypes", "types.purchases", "transactions"),
   ("Customers", "customers", "transactions"),
   ("CustomersTypes", "types.customers", "transactions"),
   ("Financial", "financial", "transactions"),
   ("FinancialTypes", "types.financial", "transactions"),
   ("Bank", "bank", "transactions"),
   ("BankTypes", "types.bank", "transactions"),
   ("Inventory", "inventory", "transactions"),
   ("InventoryTypes", "types.inventory", "transactions"),
   ("General", "general", "transactions"),
   ("Customization", "customization", "setup"),
   ("CustomizationTypes", "types.customization", "setup"),
   ("Employees", "employees", "lists"),
   ("EmployeesTypes", "types.employees", "lists"),
   ("Website", "website", "lists"),
   ("WebsiteTypes", "types.website", "lists"),
   ("EmployeesTransactions", "employees", "transactions"),
   ("EmployeesTransactionsTypes", "types.employees", "transactions"),
   ("Marketing", "marketing", "lists"),
   ("MarketingTypes", "types.marketing", "lists"),
   ("DemandPlanning", "demandplanning", "transactions"),
   ("DemandPlanningTypes", "types.demandplanning", "transactions"),
   ("SupplyChain", "supplychain", "lists"),
   ("SupplyChainTypes", "types.supplychain", "lists")]

/-! The WebServiceCall decorator. The wrapped method first runs the
underlying function, then, when a path was given, walks the dot-separated
parts with getattr, then, when an extraction function was given, applies
it. The embedding is generic in the attribute access function. -/

/-- WebServiceCall from client.py: path and extract both default to None;
the wrapper navigates the split path with getattr and then applies the
extraction function, skipping either step when its argument is None. -/
def webServiceCall {σ ρ : Type} (getattr : ρ → String → ρ)
    (path : Option String) (extract : Option (ρ → ρ)) (fn : σ → ρ) (a : σ) : ρ :=
  let response := fn a
  let response2 :=
    match path with
    | none => response
    | some p => (splitDotted p).foldl getattr response
  match extract with
  | none => response2
  | some e => e response2

/-- The claim-side navigation sequence: x0 is the starting value and each
part is applied with getattr in order. -/
def navParts {ρ : Type} (getattr : ρ → String → ρ) : List String → ρ → ρ
  | [], x => x
  | part :: rest, x => navParts getattr rest (getattr x part)

/-! Modelled from the spec: the cached_property decorator lives in the
missing util module. The spec says the cached accessors lazily construct
and memoize their value exactly once per instance. A slot starts empty; a
read returns the stored value when present and otherwise runs the builder
once and stores the result. -/

/-- Modelled from the spec: one read through a cached_property slot. The
result is the value read, the slot afterwards, and whether the builder
ran. -/
def cachedRead {α : Type} (builder : Unit → α) : Option α → α × Option α × Bool
  | some v => (v, some v, false)
  | none =>
    let v := builder ()
    (v, some v, true)

/-- A sequence of n reads through the same slot: the values read, the final
slot, and how many times the builder ran in total. -/
def cachedReadN {α : Type} (builder : Unit → α) : Nat → Option α → List α × Option α × Nat
  | 0, slot => ([], slot, 0)
  | n + 1, slot =>
    let r := cachedRead builder slot
    let rest := cachedReadN builder n r.2.1
    (r.1 :: rest.1, rest.2.1, (if r.2.2 then 1 else 0) + rest.2.2)

/-! The request dispatcher. Python values passed to and returned from the
SOAP proxy are embedded in a small dynamic value universe. -/

/-- A dynamic Python value: None, an int, a string, a list, or an object
with named fields, covering everything client.py passes to or reads from
the SOAP layer. -/
inductive PyVal where
  | none_
  | int (n : Int)
  | str (s : String)
  | list (l : List PyVal)
  | obj (fields : List (String × PyVal))

/-- Field lookup in an object field list; missing fields give None, which
no theorem below relies on. -/
def lookupField : List (String × PyVal) → String → PyVal
  | [], _ => PyVal.none_
  | (k, v) :: rest, name => if k = name then v else lookupField rest name

/-- Attribute access on a dynamic value. -/
def pyGetattr (v : PyVal) (name : String) : PyVal :=
  match v with
  | PyVal.obj fields => lookupField fields name
  | _ => PyVal.none_

/-- Item access on a dynamic value; on the zeep compound values client.py
handles it reads the named field like attribute access. -/
def pyGetitem (v : PyVal) (key : String) : PyVal :=
  match v with
  | PyVal.obj fields => lookupField fields key
  | _ => PyVal.none_

/-- Modelled from the spec: the signed passport built by passport.make in
the missing passport module, applied to the client and the stored config;
each invocation produces a freshly signed token, modelled by a sequence
number. -/
structure Passport where
  client : Nat
  config : Nat
  seq : Nat
deriving DecidableEq

/-- Modelled from the spec: passport.make applied to the client and the
stored config at a given freshness sequence number. -/
def passport_make (client config seq : Nat) : Passport :=
  { client := client, config := config, seq := seq }

/-- One outbound SOAP call as the service proxy sees it: the service name,
the positional arguments, the keyword arguments, and the _soapheaders
keyword holding the passport. -/
structure ServiceCall where
  service_name : String
  args : List PyVal
  kwargs : List (String × PyVal)
  soapheaders : Passport

/-- The dispatch-relevant state of a NetSuite instance: the client and
config identities the passport is built from, the passport freshness
counter, and the trace of outbound calls made so far. -/
structure DispatchState where
  client : Nat
  config : Nat
  passportSeq : Nat
  calls : List ServiceCall

/-- NetSuite.generate_passport: passport.make applied to the client and
the stored config; each call advances the freshness counter. -/
def generate_passport (st : DispatchState) : Passport × DispatchState :=
  (passport_make st.client st.config st.passportSeq,
   { st with passportSeq := st.passportSeq + 1 })

/-- NetSuite.request: looks up the named service on the service proxy and
calls it with the positional arguments, a _soapheaders keyword holding a
freshly generated passport, and the keyword arguments. The service proxy
is abstracted as a response function; the call made is appended to the
trace. -/
def request (svcResponse : ServiceCall → PyVal) (st : DispatchState)
    (service_name : String) (args : List PyVal) (kw : List (String × PyVal)) :
    PyVal × DispatchState :=
  let pr := generate_passport st
  let call : ServiceCall :=
    { service_name := service_name, args := args, kwargs := kw, soapheaders := pr.1 }
  (svcResponse call, { pr.2 with calls := pr.2.calls ++ [call] })

/-! The two high-level operations built on the dispatcher. -/

/-- Core.RecordRef built with a type and an internalId keyword. -/
def Core_RecordRef_internalId (ty : String) (internalId : Int) : PyVal :=
  PyVal.obj [("type", PyVal.str ty), ("internalId", PyVal.int internalId)]

/-- Core.RecordRef built with a type and an externalId keyword. -/
def Core_RecordRef_externalId (ty : String) (externalId : String) : PyVal :=
  PyVal.obj [("type", PyVal.str ty), ("externalId", PyVal.str externalId)]

/-- Messages.GetListRequest built with a baseRef keyword. -/
def Messages_GetListRequest (baseRef : List PyVal) : PyVal :=
  PyVal.obj [("baseRef", PyVal.list baseRef)]

/-- The dotted path the getList decorator navigates. -/
def getList_path : String := "body.readResponseList.readResponse"

/-- The extraction function of the getList decorator: the record item of
each element of the navigated response. -/
def getList_extract (resp : PyVal) : PyVal :=
  match resp with
  | PyVal.list l => PyVal.list (l.map (fun r => pyGetitem r "record"))
  | _ => PyVal.none_

/-- NetSuite.getList with its WebServiceCall decorator applied: asserts
that at least one id sequence is non-empty, dispatches the getList
service with a GetListRequest whose baseRef holds the RecordRefs of the
internal ids followed by those of the external ids, then navigates the
response path and extracts the record fields. The assert is embedded as
Except.error, raised before any call is dispatched. -/
def getList (svcResponse : ServiceCall → PyVal) (st : DispatchState)
    (recordType : String) (internalIds : List Int) (externalIds : List String) :
    Except String (PyVal × DispatchState) :=
  if internalIds = [] ∧ externalIds = [] then
    Except.error "AssertionError"
  else
    let req := Messages_GetListRequest
      (internalIds.map (fun i => Core_RecordRef_internalId recordType i) ++
       externalIds.map (fun e => Core_RecordRef_externalId recordType e))
    let r := request svcResponse st "getList" [req] []
    Except.ok (webServiceCall pyGetattr (some getList_path) (some getList_extract)
      (fun x => x) r.1, r.2)

/-- The dotted path the getItemAvailability decorator navigates; it has no
extraction function. -/
def getItemAvailability_path : String :=
  "body.getItemAvailabilityResult.itemAvailabilityList.itemAvailability"

/-- NetSuite.getItemAvailability with its WebServiceCall decorator applied:
asserts that at least one id sequence is non-empty, dispatches the
getItemAvailability service with an itemAvailabilityFilter keyword whose
item list holds the recordRefs of the internal ids followed by those of
the external ids, all with type inventoryItem, then navigates the
response path. -/
def getItemAvailability (svcResponse : ServiceCall → PyVal) (st : DispatchState)
    (internalIds : List Int) (externalIds : List String) :
    Except String (PyVal × DispatchState) :=
  if internalIds = [] ∧ externalIds = [] then
    Except.error "AssertionError"
  else
    let filt := PyVal.obj [("item", PyVal.list (
      internalIds.map (fun i => PyVal.obj [("recordRef", PyVal.obj
        [("type", PyVal.str "inventoryItem"), ("internalId", PyVal.int i)])]) ++
      externalIds.map (fun e => PyVal.obj [("recordRef", PyVal.obj
        [("type", PyVal.str "inventoryItem"), ("externalId", PyVal.str e)])])))]
    let r := request svcResponse st "getItemAvailability" []
      [("itemAvailabilityFilter", filt)]
    Except.ok (webServiceCall pyGetattr (some getItemAvailability_path) none
      (fun x => x) r.1, r.2)

/-! Sample fixtures shared by several witnesses. -/

/-- A NetSuite instance constructed with every keyword argument left at its
default. -/
def sampleState : NetSuiteState :=
  { sandbox := true, version := "2017.2.0", wsdl_url_arg := none,
    cache_arg := none, session_arg := none }

/-- The sample instance with a user-supplied cache. -/
def sampleStateWithCache : NetSuiteState :=
  { sampleState with cache_arg := some (CacheObj.user 7) }

/-- A dispatch state with nothing called yet. -/
def sampleDispatch : DispatchState :=
  { client := 0, config := 0, passportSeq := 0, calls := [] }

/-- A constant service proxy used in witnesses. -/
def constResponse : ServiceCall → PyVal := fun _ => PyVal.none_

/-- A fixed record wrapper used by the C6 witness. -/
def sampleRecord : PyVal := PyVal.obj [("record", PyVal.str "r1")]

/-- A service proxy whose every response carries one read response holding
the sample record. -/
def sampleOracle : ServiceCall → PyVal :=
  fun _ => PyVal.obj [("body", PyVal.obj [("readResponseList",
    PyVal.obj [("readResponse", PyVal.list [sampleRecord])])])]

/-! Helper lemmas. -/

/-- String concatenation acts as list concatenation on the data. -/
theorem str_data_append (a b : String) : (a ++ b).data = a.data ++ b.data := rfl

/-- The foldl in the decorator body equals the claim-side navigation
recursion. -/
theorem foldl_eq_navParts {ρ : Type} (getattr : ρ → String → ρ) :
    ∀ (parts : List String) (x : ρ), parts.foldl getattr x = navParts getattr parts x := by
  intro parts
  induction parts with
  | nil => intro x; rfl
  | cons p rest ih => intro x; simp [List.foldl, navParts, ih]

/-- The URN produced by the type factory, with the literal pieces grouped
around the version. -/
theorem type_factory_eq (st : NetSuiteState) (nm sub : String) :
    type_factory st nm sub =
      ("urn:" ++ nm ++ "_") ++ underscored_version_no_micro st.version ++
        ("." ++ sub ++ ".webservices.netsuite.com") := by
  simp [type_factory, get_namespace, String.append_assoc]

/-- Reads through a filled slot never run the builder and return the stored
value. -/
theorem cachedReadN_stored {α : Type} (builder : Unit → α) :
    ∀ (n : Nat) (v : α), cachedReadN builder n (some v) = (List.replicate n v, some v, 0) := by
  intro n
  induction n with
  | zero => intro v; rfl
  | succ m ih => intro v; simp [cachedReadN, cachedRead, ih, List.replicate]

/-- C1: when no wsdl_url override is given, the wsdl_url property is the
template URL built from the sandbox flag and the dot-to-underscore version;
when a non-empty override is given, the property is exactly the override. -/
theorem C1_wsdl_url_derivation (s : Bool) (v u : String)
    (hv : version_regex_match v = true) :
    (∃ st, NetSuite_init (some s) (some v) none none none = Except.ok st ∧
      st.wsdl_url = "https://webservices." ++ (if s then "sandbox." else "") ++
        "netsuite.com/wsdl/v" ++ underscored_version v ++ "/netsuite.wsdl") ∧
    (u ≠ "" → ∃ st, NetSuite_init (some s) (some v) (some u) none none = Except.ok st ∧
      st.wsdl_url = u) := by
  constructor
  · refine ⟨{ sandbox := s, version := v, wsdl_url_arg := none,
              cache_arg := none, session_arg := none }, ?_, rfl⟩
    simp [NetSuite_init, hv]
  · intro hu
    refine ⟨{ sandbox := s, version := v, wsdl_url_arg := some u,
              cache_arg := none, session_arg := none }, ?_, ?_⟩
    · simp [NetSuite_init, hv]
    · simp [NetSuiteState.wsdl_url, hu]

/-- Witness for C1 at sandbox true, version 2019.1.0, and a concrete
override. -/
theorem C1_wsdl_url_derivation_witness :
    version_regex_match "2019.1.0" = true ∧
    ("https://example.test/my.wsdl" : String) ≠ "" ∧
    (∃ st, NetSuite_init (some true) (some "2019.1.0") none none none = Except.ok st ∧
      st.wsdl_url = "https://webservices.sandbox.netsuite.com/wsdl/v2019_1_0/netsuite.wsdl") ∧
    (∃ st, NetSuite_init (some true) (some "2019.1.0") (some "https://example.test/my.wsdl")
        none none = Except.ok st ∧
      st.wsdl_url = "https://example.test/my.wsdl") :=
  ⟨by decide, by decide,
   (C1_wsdl_url_derivation true "2019.1.0" "https://example.test/my.wsdl" (by decide)).1,
   (C1_wsdl_url_derivation true "2019.1.0" "https://example.test/my.wsdl" (by decide)).2
     (by decide)⟩

/-- C7: with no cache supplied the cache property is a SqliteCache with a
one-year timeout, with a cache supplied it is exactly that cache, and the
transport is built from this cache and the session property. -/
theorem C7_cache_and_transport (st : NetSuiteState) (c : CacheObj) :
    (st.cache_arg = none → st.cache = CacheObj.sqlite (60 * 60 * 24 * 365)) ∧
    (st.cache_arg = some c → st.cache = c) ∧
    st.transport = { session := st.session, cache := st.cache } := by
  refine ⟨fun h => ?_, fun h => ?_, rfl⟩
  · simp [NetSuiteState.cache, h, generate_cache]
  · simp [NetSuiteState.cache, h]

/-- Witness for C7 on the sample instances, one without and one with a
supplied cache. -/
theorem C7_cache_and_transport_witness :
    (sampleState.cache_arg = none ∧
      sampleState.cache = CacheObj.sqlite (60 * 60 * 24 * 365)) ∧
    (sampleStateWithCache.cache_arg = some (CacheObj.user 7) ∧
      sampleStateWithCache.cache = CacheObj.user 7) :=
  ⟨⟨rfl, (C7_cache_and_transport sampleState (CacheObj.user 7)).1 rfl⟩,
   ⟨rfl, (C7_cache_and_transport sampleStateWithCache (CacheObj.user 7)).2.1 rfl⟩⟩

/-- C4: the decorated method applies the extraction function to the result
of navigating the split path from the return value of the wrapped
function, skipping the navigation when the path is None and the extraction
when the extraction function is None. -/
theorem C4_webServiceCall_decorator (σ ρ : Type) (getattr : ρ → String → ρ)
    (p : String) (e : ρ → ρ) (fn : σ → ρ) (a : σ) :
    webServiceCall getattr (some p) (some e) fn a =
      e (navParts getattr (splitDotted p) (fn a)) ∧
    webServiceCall getattr none (some e) fn a = e (fn a) ∧
    webServiceCall getattr (some p) none fn a =
      navParts getattr (splitDotted p) (fn a) ∧
    webServiceCall getattr none none fn a = fn a := by
  refine ⟨?_, rfl, ?_, rfl⟩ <;> simp [webServiceCall, foldl_eq_navParts]

/-- C2: request invokes exactly the named service, passing the positional
and keyword arguments unchanged plus a _soapheaders keyword holding a
passport built by passport.make from the client and the stored config; a
second request carries a distinct, freshly generated passport. -/
theorem C2_request_dispatch (f : ServiceCall → PyVal) (st : DispatchState)
    (n1 n2 : String) (a1 a2 : List PyVal) (k1 k2 : List (String × PyVal)) :
    request f st n1 a1 k1 =
      (f { service_name := n1, args := a1, kwargs := k1,
           soapheaders := passport_make st.client st.config st.passportSeq },
       { st with
           passportSeq := st.passportSeq + 1,
           calls := st.calls ++
             [{ service_name := n1, args := a1, kwargs := k1,
                soapheaders := passport_make st.client st.config st.passportSeq }] }) ∧
    (request f (request f st n1 a1 k1).2 n2 a2 k2).1 =
      f { service_name := n2, args := a2, kwargs := k2,
          soapheaders := passport_make st.client st.config (st.passportSeq + 1) } ∧
    passport_make st.client st.config st.passportSeq ≠
      passport_make st.client st.config (st.passportSeq + 1) := by
  refine ⟨rfl, rfl, fun h => ?_⟩
  exact Nat.succ_ne_self st.passportSeq (congrArg Passport.seq h).symm

/-- C3: reading a cached accessor n times from an empty slot runs the
builder exactly once, stores the result, and returns that same value for
every read; a read through a filled slot returns the stored value without
running the builder. -/
theorem C3_cached_accessors (α : Type) (builder : Unit → α) (n : Nat) (h : 1 ≤ n) :
    cachedReadN builder n none =
      (List.replicate n (builder ()), some (builder ()), 1) ∧
    ∀ v, cachedRead builder (some v) = (v, some v, false) := by
  refine ⟨?_, fun v => rfl⟩
  obtain ⟨m, rfl⟩ : ∃ m, n = m + 1 := ⟨n - 1, (Nat.succ_pred_eq_of_pos h).symm⟩
  simp [cachedReadN, cachedRead, cachedReadN_stored, List.replicate]

/-- Witness for C3 with the wsdl_url builder of the sample instance and two
reads. -/
theorem C3_cached_accessors_witness :
    1 ≤ 2 ∧
    (cachedReadN (fun _ => generate_wsdl_url sampleState) 2 none =
      (List.replicate 2 (generate_wsdl_url sampleState),
       some (generate_wsdl_url sampleState), 1) ∧
     ∀ v, cachedRead (fun _ => generate_wsdl_url sampleState) (some v) =
       (v, some v, false)) :=
  ⟨by decide, C3_cached_accessors String (fun _ => generate_wsdl_url sampleState) 2 (by decide)⟩

/-- C5: every namespace factory accessor yields the type factory for the
URN built from its fixed module and sub namespace pair and the configured
version with dots underscored and the micro component dropped; in
particular Core at version 2017.2.0 is bound to the core platform URN. -/
theorem C5_namespace_factory_registry (st : NetSuiteState) :
    (st.Core = "urn:core_" ++ underscored_version_no_micro st.version ++ ".platform.webservices.netsuite.com") ∧
    (st.CoreTypes = "urn:types.core_" ++ underscored_version_no_micro st.version ++ ".platform.webservices.netsuite.com") ∧
    (st.FaultsTypes = "urn:types.faults_" ++ underscored_version_no_micro st.version ++ ".platform.webservices.netsuite.com") ∧
    (st.Faults = "urn:faults_" ++ underscored_version_no_micro st.version ++ ".platform.webservices.netsuite.com") ∧
    (st.Messages = "urn:messages_" ++ underscored_version_no_micro st.version ++ ".platform.webservices.netsuite.com") ∧
    (st.Common = "urn:common_" ++ underscored_version_no_micro st.version ++ ".platform.webservices.netsuite.com") ∧
    (st.CommonTypes = "urn:types.common_" ++ underscored_version_no_micro st.version ++ ".platform.webservices.netsuite.com") ∧
    (st.Scheduling = "urn:scheduling_" ++ underscored_version_no_micro st.version ++ ".activities.webservices.netsuite.com") ∧
    (st.SchedulingTypes = "urn:types.scheduling_" ++ underscored_version_no_micro st.version ++ ".activities.webservices.netsuite.com") ∧
    (st.Communication = "urn:communication_" ++ underscored_version_no_micro st.version ++ ".general.webservices.netsuite.com") ∧
    (st.CommunicationTypes = "urn:types.communication_" ++ underscored_version_no_micro st.version ++ ".general.webservices.netsuite.com") ∧
    (st.Filecabinet = "urn:filecabinet_" ++ underscored_version_no_micro st.version ++ ".documents.webservices.netsuite.com") ∧
    (st.FilecabinetTypes = "urn:types.filecabinet_" ++ underscored_version_no_micro st.version ++ ".documents.webservices.netsuite.com") ∧
    (st.Relationships = "urn:relationships_" ++ underscored_version_no_micro st.version ++ ".lists.webservices.netsuite.com") ∧
    (st.RelationshipsTypes = "urn:types.relationships_" ++ underscored_version_no_micro st.version ++ ".lists.webservices.netsuite.com") ∧
    (st.Support = "urn:support_" ++ underscored_version_no_micro st.version ++ ".lists.webservices.netsuite.com") ∧
    (st.SupportTypes = "urn:types.support_" ++ underscored_version_no_micro st.version ++ ".lists.webservices.netsuite.com") ∧
    (st.Accounting = "urn:accounting_" ++ underscored_version_no_micro st.version ++ ".lists.webservices.netsuite.com") ∧
    (st.AccountingTypes = "urn:types.accounting_" ++ underscored_version_no_micro st.version ++ ".lists.webservices.netsuite.com") ∧
    (st.Sales = "urn:sales_" ++ underscored_version_no_micro st.version ++ ".transactions.webservices.netsuite.com") ∧
    (st.SalesTypes = "urn:types.sales_" ++ underscored_version_no_micro st.version ++ ".transactions.webservices.netsuite.com") ∧
    (st.Purchases = "urn:purchases_" ++ underscored_version_no_micro st.version ++ ".transactions.webservices.netsuite.com") ∧
    (st.PurchasesTypes = "urn:types.purchases_" ++ underscored_version_no_micro st.version ++ ".transactions.webservices.netsuite.com") ∧
    (st.Customers = "urn:customers_" ++ underscored_version_no_micro st.version ++ ".transactions.webservices.netsuite.com") ∧
    (st.CustomersTypes = "urn:types.customers_" ++ underscored_version_no_micro st.version ++ ".transactions.webservices.netsuite.com") ∧
    (st.Financial = "urn:financial_" ++ underscored_version_no_micro st.version ++ ".transactions.webservices.netsuite.com") ∧
    (st.FinancialTypes = "urn:types.financial_" ++ underscored_version_no_micro st.version ++ ".transactions.webservices.netsuite.com") ∧
    (st.Bank = "urn:bank_" ++ underscored_version_no_micro st.version ++ ".transactions.webservices.netsuite.com") ∧
    (st.BankTypes = "urn:types.bank_" ++ underscored_version_no_micro st.version ++ ".transactions.webservices.netsuite.com") ∧
    (st.Inventory = "urn:inventory_" ++ underscored_version_no_micro st.version ++ ".transactions.webservices.netsuite.com") ∧
    (st.InventoryTypes = "urn:types.inventory_" ++ underscored_version_no_micro st.version ++ ".transactions.webservices.netsuite.com") ∧
    (st.General = "urn:general_" ++ underscored_version_no_micro st.version ++ ".transactions.webservices.netsuite.com") ∧
    (st.Customization = "urn:customization_" ++ underscored_version_no_micro st.version ++ ".setup.webservices.netsuite.com") ∧
    (st.CustomizationTypes = "urn:types.customization_" ++ underscored_version_no_micro st.version ++ ".setup.webservices.netsuite.com") ∧
    (st.Employees = "urn:employees_" ++ underscored_version_no_micro st.version ++ ".lists.webservices.netsuite.com") ∧
    (st.EmployeesTypes = "urn:types.employees_" ++ underscored_version_no_micro st.version ++ ".lists.webservices.netsuite.com") ∧
    (st.Website = "urn:website_" ++ underscored_version_no_micro st.version ++ ".lists.webservices.netsuite.com") ∧
    (st.WebsiteTypes = "urn:types.website_" ++ underscored_version_no_micro st.version ++ ".lists.webservices.netsuite.com") ∧
    (st.EmployeesTransactions = "urn:employees_" ++ underscored_version_no_micro st.version ++ ".transactions.webservices.netsuite.com") ∧
    (st.EmployeesTransactionsTypes = "urn:types.employees_" ++ underscored_version_no_micro st.version ++ ".transactions.webservices.netsuite.com") ∧
    (st.Marketing = "urn:marketing_" ++ underscored_version_no_micro st.version ++ ".lists.webservices.netsuite.com") ∧
    (st.MarketingTypes = "urn:types.marketing_" ++ underscored_version_no_micro st.version ++ ".lists.webservices.netsuite.com") ∧
    (st.DemandPlanning = "urn:demandplanning_" ++ underscored_version_no_micro st.version ++ ".transactions.webservices.netsuite.com") ∧
    (st.DemandPlanningTypes = "urn:types.demandplanning_" ++ underscored_version_no_micro st.version ++ ".transactions.webservices.netsuite.com") ∧
    (st.SupplyChain = "urn:supplychain_" ++ underscored_version_no_micro st.version ++ ".lists.webservices.netsuite.com") ∧
    (st.SupplyChainTypes = "urn:types.supplychain_" ++ underscored_version_no_micro st.version ++ ".lists.webservices.netsuite.com") ∧
    underscored_version_no_micro "2017.2.0" = "2017_2" ∧
    sampleState.Core = "urn:core_2017_2.platform.webservices.netsuite.com" :=
  ⟨type_factory_eq st "core" "platform",
   type_factory_eq st "types.core" "platform",
   type_factory_eq st "types.faults" "platform",
   type_factory_eq st "faults" "platform",
   type_factory_eq st "messages" "platform",
   type_factory_eq st "common" "platform",
   type_factory_eq st "types.common" "platform",
   type_factory_eq st "scheduling" "activities",
   type_factory_eq st "types.scheduling" "activities",
   type_factory_eq st "communication" "general",
   type_factory_eq st "types.communication" "general",
   type_factory_eq st "filecabinet" "documents",
   type_factory_eq st "types.filecabinet" "documents",
   type_factory_eq st "relationships" "lists",
   type_factory_eq st "types.relationships" "lists",
   type_factory_eq st "support" "lists",
   type_factory_eq st "types.support" "lists",
   type_factory_eq st "accounting" "lists",
   type_factory_eq st "types.accounting" "lists",
   type_factory_eq st "sales" "transactions",
   type_factory_eq st "types.sales" "transactions",
   type_factory_eq st "purchases" "transactions",
   type_factory_eq st "types.purchases" "transactions",
   type_factory_eq st "customers" "transactions",
   type_factory_eq st "types.customers" "transactions",
   type_factory_eq st "financial" "transactions",
   type_factory_eq st "types.financial" "transactions",
   type_factory_eq st "bank" "transactions",
   type_factory_eq st "types.bank" "transactions",
   type_factory_eq st "inventory" "transactions",
   type_factory_eq st "types.inventory" "transactions",
   type_factory_eq st "general" "transactions",
   type_factory_eq st "customization" "setup",
   type_factory_eq st "types.customization" "setup",
   type_factory_eq st "employees" "lists",
   type_factory_eq st "types.employees" "lists",
   type_factory_eq st "website" "lists",
   type_factory_eq st "types.website" "lists",
   type_factory_eq st "employees" "transactions",
   type_factory_eq st "types.employees" "transactions",
   type_factory_eq st "marketing" "lists",
   type_factory_eq st "types.marketing" "lists",
   type_factory_eq st "demandplanning" "transactions",
   type_factory_eq st "types.demandplanning" "transactions",
   type_factory_eq st "supplychain" "lists",
   type_factory_eq st "types.supplychain" "lists",
   rfl, rfl⟩

/-- C8: with both id sequences empty, getList and getItemAvailability fail
the assert and raise AssertionError before dispatching anything, so no
call and no new state are produced; with at least one sequence non-empty
the assert passes and both return a result. -/
theorem C8_empty_ids_assert (f : ServiceCall → PyVal) (st : DispatchState) (rt : String) :
    getList f st rt [] [] = Except.error "AssertionError" ∧
    getItemAvailability f st [] [] = Except.error "AssertionError" ∧
    ∀ (ids : List Int) (eids : List String), (ids ≠ [] ∨ eids ≠ []) →
      (getList f st rt ids eids).isOk = true ∧
      (getItemAvailability f st ids eids).isOk = true := by
  refine ⟨rfl, rfl, fun ids eids h => ?_⟩
  have hc : ¬(ids = [] ∧ eids = []) := by
    rcases h with h | h
    · exact fun hh => h hh.1
    · exact fun hh => h hh.2
  constructor
  · unfold getList
    rw [if_neg hc]
    rfl
  · unfold getItemAvailability
    rw [if_neg hc]
    rfl

/-- Witness for C8 with empty sequences and with one non-empty internal id
list. -/
theorem C8_empty_ids_assert_witness :
    (getList constResponse sampleDispatch "account" [] [] = Except.error "AssertionError" ∧
     getItemAvailability constResponse sampleDispatch [] [] = Except.error "AssertionError") ∧
    (([1] : List Int) ≠ [] ∨ ([] : List String) ≠ []) ∧
    ((getList constResponse sampleDispatch "account" [1] []).isOk = true ∧
     (getItemAvailability constResponse sampleDispatch [1] []).isOk = true) :=
  ⟨⟨(C8_empty_ids_assert constResponse sampleDispatch "account").1,
    (C8_empty_ids_assert constResponse sampleDispatch "account").2.1⟩,
   Or.inl (by decide),
   (C8_empty_ids_assert constResponse sampleDispatch "account").2.2 [1] []
     (Or.inl (by decide))⟩

/-- A sandbox instance with no wsdl override derives a URL containing the
sandbox subpath. -/
theorem sandbox_url_infix (st : NetSuiteState) (h1 : st.sandbox = true)
    (h2 : st.wsdl_url_arg = none) :
    List.IsInfix "sandbox.".data st.wsdl_url.data := by
  have hurl : st.wsdl_url = wsdl_url_tmpl_format "sandbox." (underscored_version st.version) := by
    simp [NetSuiteState.wsdl_url, h2, generate_wsdl_url, h1]
  rw [hurl]
  refine ⟨"https://webservices.".data,
    ("netsuite.com/wsdl/v" ++ underscored_version st.version ++ "/netsuite.wsdl").data, ?_⟩
  simp [wsdl_url_tmpl_format, str_data_append, List.append_assoc]

/-- C9: an instance constructed without a sandbox argument keeps the class
default True, so without a wsdl override the derived WSDL URL contains the
sandbox subpath. -/
theorem C9_sandbox_defaults_true (version : Option String) (cache : Option CacheObj)
    (session : Option SessionObj) (st : NetSuiteState)
    (h : NetSuite_init none version none cache session = Except.ok st) :
    st.sandbox = true ∧ List.IsInfix "sandbox.".data st.wsdl_url.data := by
  have hs : st.sandbox = true ∧ st.wsdl_url_arg = none := by
    cases version with
    | none =>
      simp only [NetSuite_init, Except.ok.injEq] at h
      subst h
      exact ⟨rfl, rfl⟩
    | some v =>
      by_cases hv : version_regex_match v = true
      · simp only [NetSuite_init, hv, if_true, Except.ok.injEq] at h
        subst h
        exact ⟨rfl, rfl⟩
      · simp only [NetSuite_init, hv, if_false, reduceCtorEq] at h
  exact ⟨hs.1, sandbox_url_infix st hs.1 hs.2⟩

/-- Witness for C9 on the all-defaults constructor call. -/
theorem C9_sandbox_defaults_true_witness :
    NetSuite_init none none none none none = Except.ok sampleState ∧
    sampleState.sandbox = true ∧
    List.IsInfix "sandbox.".data sampleState.wsdl_url.data :=
  ⟨rfl, C9_sandbox_defaults_true none none none sampleState rfl⟩

/-- C6: with at least one id, getList dispatches the getList service with a
GetListRequest whose baseRef holds the RecordRefs for the internal ids in
input order, each with the record type and that internalId, followed by
the RecordRefs for the external ids in input order, and returns the list
of the record field of each element found at body readResponseList
readResponse of the response. -/
theorem C6_getList_shape (f : ServiceCall → PyVal) (st : DispatchState)
    (recordType : String) (internalIds : List Int) (externalIds : List String)
    (rs : List PyVal)
    (hne : ¬(internalIds = [] ∧ externalIds = []))
    (hresp : ∀ call, f call = PyVal.obj [("body", PyVal.obj [("readResponseList",
      PyVal.obj [("readResponse", PyVal.list rs)])])]) :
    getList f st recordType internalIds externalIds =
      Except.ok (PyVal.list (rs.map (fun r => pyGetitem r "record")),
        { st with
            passportSeq := st.passportSeq + 1,
            calls := st.calls ++
              [{ service_name := "getList",
                 args := [PyVal.obj [("baseRef", PyVal.list (
                   internalIds.map (fun i => PyVal.obj [("type", PyVal.str recordType),
                     ("internalId", PyVal.int i)]) ++
                   externalIds.map (fun e => PyVal.obj [("type", PyVal.str recordType),
                     ("externalId", PyVal.str e)])))]],
                 kwargs := [],
                 soapheaders := passport_make st.client st.config st.passportSeq }] }) := by
  unfold getList
  rw [if_neg hne]
  show Except.ok (webServiceCall pyGetattr (some getList_path) (some getList_extract)
    (fun x => x) (f _), _) = _
  rw [hresp]
  rfl

/-- Witness for C6 with two internal ids and one external id. -/
theorem C6_getList_shape_witness :
    (¬(([1, 2] : List Int) = [] ∧ (["a"] : List String) = [])) ∧
    getList sampleOracle sampleDispatch "account" [1, 2] ["a"] =
      Except.ok (PyVal.list [PyVal.str "r1"],
        { client := 0, config := 0, passportSeq := 1,
          calls := [{ service_name := "getList",
                      args := [PyVal.obj [("baseRef", PyVal.list
                        [PyVal.obj [("type", PyVal.str "account"), ("internalId", PyVal.int 1)],
                         PyVal.obj [("type", PyVal.str "account"), ("internalId", PyVal.int 2)],
                         PyVal.obj [("type", PyVal.str "account"), ("externalId", PyVal.str "a")]])]],
                      kwargs := [],
                      soapheaders := passport_make 0 0 0 }] }) :=
  ⟨by decide,
   C6_getList_shape sampleOracle sampleDispatch "account" [1, 2] ["a"]
     [sampleRecord] (by decide) (fun _ => rfl)⟩

/-- Every list is the digits it starts with followed by what dropDigits
leaves. -/
theorem dropDigits_decomp : ∀ l : List Char,
    ∃ ds, l = ds ++ dropDigits l ∧ ∀ ch ∈ ds, ch.isDigit = true := by
  intro l
  induction l with
  | nil => exact ⟨[], rfl, fun ch hch => absurd hch (List.not_mem_nil ch)⟩
  | cons c rest ih =>
    by_cases hc : c.isDigit = true
    · obtain ⟨ds, hds, hall⟩ := ih
      refine ⟨c :: ds, ?_, ?_⟩
      · have hdrop : dropDigits (c :: rest) = dropDigits rest := by simp [dropDigits, hc]
        rw [hdrop, List.cons_append, ← hds]
      · intro ch hch
        rcases List.mem_cons.mp hch with h1 | h1
        · rw [h1]; exact hc
        · exact hall ch h1
    · refine ⟨[], ?_, fun ch hch => absurd hch (List.not_mem_nil ch)⟩
      have hdrop : dropDigits (c :: rest) = c :: rest := by simp [dropDigits, hc]
      rw [hdrop]
      rfl

/-- dropDigits consumes a leading run of digits and stops at a dot. -/
theorem dropDigits_append_dot : ∀ (ds l : List Char), (∀ ch ∈ ds, ch.isDigit = true) →
    dropDigits (ds ++ '.' :: l) = '.' :: l := by
  intro ds
  induction ds with
  | nil =>
    intro l _
    have hdot : ('.' : Char).isDigit = false := rfl
    simp [dropDigits, hdot]
  | cons d ds ih =>
    intro l hall
    have hd : d.isDigit = true := hall d (List.mem_cons_self d ds)
    have hstep : dropDigits ((d :: ds) ++ '.' :: l) = dropDigits (ds ++ '.' :: l) := by
      simp [dropDigits, hd]
    rw [hstep]
    exact ih l (fun ch hch => hall ch (List.mem_cons_of_mem d hch))

/-- A successful digit-run match splits off a non-empty all-digit block. -/
theorem matchPlusDigits_sound : ∀ (l r : List Char), matchPlusDigits l = some r →
    ∃ ds, l = ds ++ r ∧ ds ≠ [] ∧ ∀ ch ∈ ds, ch.isDigit = true := by
  intro l r h
  cases l with
  | nil => exact absurd h (by simp [matchPlusDigits])
  | cons c rest =>
    by_cases hc : c.isDigit = true
    · have hr : dropDigits rest = r := by
        simp [matchPlusDigits, hc] at h
        exact h
      obtain ⟨ds, hds, hall⟩ := dropDigits_decomp rest
      refine ⟨c :: ds, ?_, by simp, ?_⟩
      · rw [← hr, List.cons_append, ← hds]
      · intro ch hch
        rcases List.mem_cons.mp hch with h1 | h1
        · rw [h1]; exact hc
        · exact hall ch h1
    · simp [matchPlusDigits, hc] at h

/-- A successful dot match splits off a leading dot. -/
theorem matchDot_sound : ∀ (l r : List Char), matchDot l = some r → l = '.' :: r := by
  intro l r h
  cases l with
  | nil => exact absurd h (by simp [matchDot])
  | cons c rest =>
    by_cases hc : c = '.'
    · subst hc
      simp [matchDot] at h
      rw [h]
    · simp [matchDot, hc] at h

/-- The digit-run matcher consumes a non-empty all-digit block stopping at
a dot. -/
theorem matchPlusDigits_complete_dot (d : Char) (ds l : List Char)
    (hd : d.isDigit = true) (hds : ∀ ch ∈ ds, ch.isDigit = true) :
    matchPlusDigits ((d :: ds) ++ '.' :: l) = some ('.' :: l) := by
  have hshape : (d :: ds) ++ '.' :: l = d :: (ds ++ '.' :: l) := rfl
  rw [hshape]
  simp [matchPlusDigits, hd, dropDigits_append_dot ds l hds]

/-- The digit-run matcher succeeds on any list starting with a digit. -/
theorem matchPlusDigits_head (d : Char) (t : List Char) (hd : d.isDigit = true) :
    (matchPlusDigits (d :: t)).isSome = true := by
  simp [matchPlusDigits, hd]

/-- The dot matcher consumes a leading dot. -/
theorem matchDot_cons (l : List Char) : matchDot ('.' :: l) = some l := by
  simp [matchDot]

/-- The embedded regex matcher accepts exactly the strings that begin with
digits dot digits dot digits. -/
theorem version_regex_match_iff (v : String) :
    version_regex_match v = true ↔ isVersionPrefixShape v := by
  constructor
  · intro h
    unfold version_regex_match at h
    rw [Option.isSome_iff_exists] at h
    obtain ⟨r5, h5⟩ := h
    rw [Option.bind_eq_some] at h5
    obtain ⟨r4, h4, h5⟩ := h5
    rw [Option.bind_eq_some] at h4
    obtain ⟨r3, h3, h4⟩ := h4
    rw [Option.bind_eq_some] at h3
    obtain ⟨r2, h2, h3⟩ := h3
    rw [Option.bind_eq_some] at h2
    obtain ⟨r1, h1, h2⟩ := h2
    obtain ⟨a, hva, hane, hada⟩ := matchPlusDigits_sound _ _ h1
    have hr1 : r1 = '.' :: r2 := matchDot_sound _ _ h2
    obtain ⟨b, hrb, hbne, hbdb⟩ := matchPlusDigits_sound _ _ h3
    have hr3 : r3 = '.' :: r4 := matchDot_sound _ _ h4
    obtain ⟨c, hrc, hcne, hcdc⟩ := matchPlusDigits_sound _ _ h5
    refine ⟨a, b, c, r5, ?_, hane, hbne, hcne, hada, hbdb, hcdc⟩
    rw [hva, hr1, hrb, hr3, hrc]
  · rintro ⟨a, b, c, rest, hv, ha, hb, hc, hda, hdb, hdc⟩
    obtain ⟨a0, a1, rfl⟩ : ∃ x xs, a = x :: xs := by
      cases a with
      | nil => exact absurd rfl ha
      | cons x xs => exact ⟨x, xs, rfl⟩
    obtain ⟨b0, b1, rfl⟩ : ∃ x xs, b = x :: xs := by
      cases b with
      | nil => exact absurd rfl hb
      | cons x xs => exact ⟨x, xs, rfl⟩
    obtain ⟨c0, c1, rfl⟩ : ∃ x xs, c = x :: xs := by
      cases c with
      | nil => exact absurd rfl hc
      | cons x xs => exact ⟨x, xs, rfl⟩
    unfold version_regex_match
    rw [hv]
    rw [matchPlusDigits_complete_dot a0 a1 _ (hda a0 (List.mem_cons_self a0 a1))
      (fun ch hch => hda ch (List.mem_cons_of_mem a0 hch))]
    simp only [Option.some_bind]
    rw [matchDot_cons]
    simp only [Option.some_bind]
    rw [matchPlusDigits_complete_dot b0 b1 _ (hdb b0 (List.mem_cons_self b0 b1))
      (fun ch hch => hdb ch (List.mem_cons_of_mem b0 hch))]
    simp only [Option.some_bind]
    rw [matchDot_cons]
    simp only [Option.some_bind]
    have hcons : (c0 :: c1) ++ rest = c0 :: (c1 ++ rest) := rfl
    rw [hcons]
    exact matchPlusDigits_head c0 (c1 ++ rest) (hdc c0 (List.mem_cons_self c0 c1))

/-- C10: a version override is accepted exactly when it begins with digits
dot digits dot digits, with arbitrary trailing characters allowed; a
rejected override raises AssertionError; a None version keeps the class
default 2017.2.0 unchanged. -/
theorem C10_version_validation (v : String) (sb : Option Bool) (w : Option String)
    (c : Option CacheObj) (s : Option SessionObj) :
    ((NetSuite_init sb (some v) w c s).isOk = true ↔ isVersionPrefixShape v) ∧
    (¬isVersionPrefixShape v →
      NetSuite_init sb (some v) w c s = Except.error "AssertionError") ∧
    (isVersionPrefixShape v →
      ∃ st, NetSuite_init sb (some v) w c s = Except.ok st ∧ st.version = v) ∧
    (∃ st, NetSuite_init sb none w c s = Except.ok st ∧ st.version = "2017.2.0") := by
  have hiff := version_regex_match_iff v
  by_cases hm : version_regex_match v = true
  · refine ⟨?_, ?_, ?_, ⟨_, rfl, rfl⟩⟩
    · simp [NetSuite_init, hm, hiff.mp hm, Except.isOk, Except.toBool]
    · intro hns
      exact absurd (hiff.mp hm) hns
    · intro _
      exact ⟨{ sandbox := (match sb with | some b => b | none => default_sandbox),
               version := v, wsdl_url_arg := w, cache_arg := c, session_arg := s },
             by simp [NetSuite_init, hm], rfl⟩
  · have hns : ¬isVersionPrefixShape v := fun hs => hm (hiff.mpr hs)
    refine ⟨?_, ?_, ?_, ⟨_, rfl, rfl⟩⟩
    · simp [NetSuite_init, hm, hns, Except.isOk, Except.toBool]
    · intro _
      simp [NetSuite_init, hm]
    · intro hs
      exact absurd hs hns

/-- Witness for C10 on the version 1.2.3-beta, which has the required
prefix and trailing characters, and on the None version keeping the
default. -/
theorem C10_version_validation_witness :
    isVersionPrefixShape "1.2.3-beta" ∧
    (NetSuite_init none (some "1.2.3-beta") none none none).isOk = true ∧
    (∃ st, NetSuite_init none none none none none = Except.ok st ∧
      st.version = "2017.2.0") := by
  have hshape : isVersionPrefixShape "1.2.3-beta" :=
    ⟨['1'], ['2'], ['3'], "-beta".data, by decide, by decide, by decide, by decide,
     by decide, by decide, by decide⟩
  have h := C10_version_validation "1.2.3-beta" none none none none
  exact ⟨hshape, h.1.mpr hshape, h.2.2.2⟩

end NS
